import Mathlib

/-!
Verification of the website-testing automation tool's orchestration and
issue-aggregation pipeline (src/test-runner.js and the four phase testers).

Shallow embedding conventions:
- JS numbers are modelled as exact rationals (`ℚ`); every comparison and
  arithmetic step the claims touch is order-stable under this modelling.
- JS objects with optional fields become structures with `Option` fields;
  the idiom `x.field || []` becomes `Option.getD`.
- Browser interactions (CDP metrics, DOM queries, axe-core audits) are the
  environment's responses: each phase's `runTests` is a function of an
  `Except String` input whose `.error` case is the exception caught by the
  phase-boundary try/catch.
- Pass-through payload fields that no code path branches on (per-resource
  `resourceCounts`, the `metrics` echo object, `rawResults`, per-viewport
  screenshot paths, the ISO timestamp) are not observed by the orchestrator
  or by any claim and are omitted from `PhaseResult`; element-descriptor
  lists inside responsive findings are observed only through `.length`, so
  they are modelled by their lengths.
-/

/-- One affected DOM node as reported by the accessibility engine
(`{html, target}` in `_formatIssues`). -/
structure AxeNode where
  html : String
  target : List String
  deriving Repr, DecidableEq

/-- The unified issue record every phase normalizes findings into. Optional
fields default to `none`/`[]` exactly as absent fields on the JS object. -/
structure Issue where
  type : String
  description : String
  severity : String
  location : Option String := none
  suggestion : Option String := none
  impact : Option String := none
  elements : List AxeNode := []
  deriving Repr, DecidableEq

/-- Lighthouse-style category scores (`scores` object in
`PerformanceTester.runTests`). -/
structure Scores where
  performance : ℚ
  accessibility : ℚ
  bestPractices : ℚ
  seo : ℚ
  deriving Repr, DecidableEq

/-- Result object returned by each phase tester's `runTests`; `issues`,
`error` and `scores` are `Option` because the JS objects carry these fields
only on some return paths. -/
structure PhaseResult where
  success : Bool
  issues : Option (List Issue) := none
  error : Option String := none
  scores : Option Scores := none
  deriving Repr, DecidableEq

/-- JS `a || b` on an optional string: `undefined`/`null` and the empty
string are falsy. -/
def jsOrStr (a : Option String) (b : String) : String :=
  match a with
  | none => b
  | some s => if s = "" then b else s

/-! ## Performance phase (src/modules/performance-tester.js, PerformanceTester) -/

/-- Per-category score thresholds (`config.performance.thresholds`). -/
structure Thresholds where
  performance : ℚ
  accessibility : ℚ
  bestPractices : ℚ
  seo : ℚ
  deriving Repr, DecidableEq

/-- Default thresholds from src/config.js: performance 0.7, accessibility
0.9, best-practices 0.9, seo 0.8. -/
def defaultThresholds : Thresholds :=
  { performance := 7/10, accessibility := 9/10, bestPractices := 9/10, seo := 8/10 }

/-- Raw CDP metrics as looked up on the converted metrics object; a missing
entry is `none` and the code reads it as `metrics.Name || 0`. -/
structure PerfRaw where
  navigationStart : Option ℚ
  domContentLoaded : Option ℚ
  firstPaint : Option ℚ
  firstContentfulPaint : Option ℚ
  loadEventEnd : Option ℚ
  deriving Repr, DecidableEq

/-- One `performance.getEntriesByType('resource')` entry as mapped in the
page-side script (`{name, duration, transferSize, initiatorType}`). -/
structure ResourceTiming where
  name : String
  duration : ℚ
  transferSize : Option ℚ
  initiatorType : Option String
  deriving Repr, DecidableEq

/-- Everything the performance phase reads from the environment on its
successful path. -/
structure PerfInput where
  raw : PerfRaw
  resources : List ResourceTiming
  thresholds : Thresholds
  deriving Repr, DecidableEq

/-- The `calculateScore` arrow function: linear inverse clamp
`max(0, min(1, 1 - min(max((value-min)/(max-min), 0), 1)))`. -/
def calculateScore (value mn mx : ℚ) : ℚ :=
  let score := 1 - min (max ((value - mn) / (mx - mn)) 0) 1
  max 0 (min 1 score)

/-- The single score-threshold warning pushed inside the
`Object.entries(scores).forEach` loop. -/
def scoreIssue (category : String) (score threshold : ℚ) : Issue :=
  { type := "Performance Issue"
    description := category ++ " score (" ++ toString (round (score * 100)) ++
      "%) is below threshold (" ++ toString (round (threshold * 100)) ++ "%)"
    severity := "warning"
    suggestion := some ("Improve " ++ category ++
      " by following web performance best practices") }

/-- The `Object.entries(scores).forEach` threshold loop; JS object iteration
follows insertion order: performance, accessibility, best-practices, seo. -/
def thresholdIssues (s : Scores) (t : Thresholds) : List Issue :=
  (if s.performance < t.performance then
    [scoreIssue "performance" s.performance t.performance] else []) ++
  (if s.accessibility < t.accessibility then
    [scoreIssue "accessibility" s.accessibility t.accessibility] else []) ++
  (if s.bestPractices < t.bestPractices then
    [scoreIssue "best-practices" s.bestPractices t.bestPractices] else []) ++
  (if s.seo < t.seo then [scoreIssue "seo" s.seo t.seo] else [])

/-- PerformanceTester.runTests: derives timing offsets, sums resource
transfer sizes, computes the blended score, and emits issues in source
order (load time, FCP, page size, resource count, then the four threshold
checks). The `.error` case is the surrounding try/catch, which degrades to
a single synthetic "Performance Test Error" issue. -/
def performanceRunTests (inp : Except String PerfInput) : PhaseResult :=
  match inp with
  | .error msg =>
    { success := false
      error := some msg
      issues := some [{ type := "Performance Test Error", description := msg,
                        severity := "error" }] }
  | .ok i =>
    let navigationStart := i.raw.navigationStart.getD 0
    let firstContentfulPaint := i.raw.firstContentfulPaint.getD 0
    let loadEventEnd := i.raw.loadEventEnd.getD 0
    let firstContentfulPaintTime := firstContentfulPaint - navigationStart
    let loadTime := loadEventEnd - navigationStart
    let totalResourceSize :=
      i.resources.foldl (fun total r => total + r.transferSize.getD 0) 0
    let totalResources := i.resources.length
    let scores : Scores :=
      { performance := calculateScore firstContentfulPaintTime 1000 3000 * (4/10) +
                       calculateScore loadTime 2000 6000 * (6/10)
        accessibility := 85/100
        bestPractices := 9/10
        seo := 85/100 }
    let issues : List Issue :=
      (if loadTime > 3000 then
        [{ type := "Slow Page Load"
           description := "Page load time is slow: " ++ toString (round loadTime) ++ "ms"
           severity := "warning"
           suggestion := some "Optimize page resources and server response time" }]
       else []) ++
      (if firstContentfulPaintTime > 2000 then
        [{ type := "Slow First Contentful Paint"
           description := "First Contentful Paint is slow: " ++
             toString (round firstContentfulPaintTime) ++ "ms"
           severity := "warning"
           suggestion := some "Optimize critical rendering path and reduce render-blocking resources" }]
       else []) ++
      (if totalResourceSize > (3 * 1024 * 1024 : ℚ) then
        [{ type := "Large Page Size"
           description := "Page resources are large: " ++
             toString (round (totalResourceSize / 1024)) ++ "KB"
           severity := "warning"
           suggestion := some "Optimize and compress resources, use lazy loading for images and videos" }]
       else []) ++
      (if totalResources > 80 then
        [{ type := "Too Many Resources"
           description := "Page loads " ++ toString totalResources ++ " resources"
           severity := "warning"
           suggestion := some "Reduce the number of resources by combining files, using sprites, or removing unnecessary resources" }]
       else []) ++
      thresholdIssues scores i.thresholds
    { success := issues.isEmpty
      scores := some scores
      issues := some issues }

/-! ## Functional phase (FunctionalTester, second module in performance-tester.js's file group) -/

/-- One sub-test's result (`testNavigation`, `testButtons`, ...): each
returns `{success, issues?}` plus counts the orchestrator never reads. -/
structure SubResult where
  success : Bool
  issues : Option (List Issue) := none
  deriving Repr, DecidableEq

/-- The six sub-test results gathered into the `results` object, in
insertion order: navigation, buttons, forms, links, images, inputs. -/
structure FuncSubResults where
  navigation : SubResult
  buttons : SubResult
  forms : SubResult
  links : SubResult
  images : SubResult
  inputs : SubResult
  deriving Repr, DecidableEq

/-- FunctionalTester.runTests: flat-maps `result.issues || []` over the six
sub-results in object order and sets `success = issues.length === 0`. Its
top-level catch returns `{success:false, error}` with NO issues field. -/
def functionalRunTests (inp : Except String FuncSubResults) : PhaseResult :=
  match inp with
  | .error msg => { success := false, error := some msg }
  | .ok r =>
    let issues :=
      r.navigation.issues.getD [] ++ r.buttons.issues.getD [] ++
      r.forms.issues.getD [] ++ r.links.issues.getD [] ++
      r.images.issues.getD [] ++ r.inputs.issues.getD []
    { success := issues.isEmpty, issues := some issues }

/-! ## Responsive phase (src/modules/responsive-tester.js, ResponsiveTester) -/

/-- One configured viewport (`config.viewports` entry). -/
structure ViewportSpec where
  width : Nat
  height : Nat
  name : String
  deriving Repr, DecidableEq

/-- Everything the per-viewport checks report that the issue builder
observes: the overflow flag and the three finding-list lengths (the
descriptor lists themselves are only read through `.length`). -/
structure ViewportCheck where
  viewport : ViewportSpec
  hasHorizontalOverflow : Bool
  overflowingCount : Nat
  tinyTextCount : Nat
  overlappingCount : Nat
  deriving Repr, DecidableEq

/-- The interpolation `${viewport.width}x${viewport.height} (${viewport.name})`. -/
def viewportLabel (v : ViewportSpec) : String :=
  toString v.width ++ "x" ++ toString v.height ++ " (" ++ v.name ++ ")"

/-- The four conditional `issues.push` calls executed for one viewport, in
source order. -/
def viewportIssues (c : ViewportCheck) : List Issue :=
  (if c.hasHorizontalOverflow then
    [{ type := "Horizontal Overflow"
       description := "Page has horizontal overflow at " ++ viewportLabel c.viewport
       severity := "error"
       suggestion := some "Use responsive design techniques like max-width, flexbox, or CSS Grid" }]
   else []) ++
  (if c.overflowingCount > 0 then
    [{ type := "Overflowing Elements"
       description := "Found " ++ toString c.overflowingCount ++
         " elements overflowing the viewport at " ++ viewportLabel c.viewport
       severity := "warning"
       suggestion := some "Adjust element dimensions with CSS media queries or use responsive units" }]
   else []) ++
  (if c.tinyTextCount > 0 then
    [{ type := "Tiny Text"
       description := "Found " ++ toString c.tinyTextCount ++
         " elements with very small text at " ++ viewportLabel c.viewport
       severity := "warning"
       suggestion := some "Increase font size for better readability on smaller screens" }]
   else []) ++
  (if c.overlappingCount > 0 then
    [{ type := "Overlapping Elements"
       description := "Found " ++ toString c.overlappingCount ++
         " potentially overlapping elements at " ++ viewportLabel c.viewport
       severity := "warning"
       suggestion := some "Adjust layout to prevent elements from overlapping" }]
   else [])

/-- ResponsiveTester.runTests: accumulates the per-viewport issues over the
configured viewport loop; its catch degrades to a single synthetic
"Responsive Test Error" issue. -/
def responsiveRunTests (inp : Except String (List ViewportCheck)) : PhaseResult :=
  match inp with
  | .error msg =>
    { success := false
      error := some msg
      issues := some [{ type := "Responsive Test Error", description := msg,
                        severity := "error" }] }
  | .ok checks =>
    let issues := (checks.map viewportIssues).flatten
    { success := issues.isEmpty, issues := some issues }

/-! ## Accessibility phase (src/modules/accessibility-tester.js, AccessibilityTester) -/

/-- One raw axe-core finding as consumed by `_formatIssues`. -/
structure AxeFinding where
  id : String
  help : Option String
  description : String
  impact : Option String
  helpUrl : Option String
  nodes : List AxeNode
  deriving Repr, DecidableEq

/-- Successful audit output: the `violations` and `incomplete` arrays. -/
structure AxeResults where
  violations : List AxeFinding
  incomplete : List AxeFinding
  deriving Repr, DecidableEq

/-- The three ways the audit interaction can go: an exception (injection
failure or any other throw, caught by the phase's try/catch), an
engine-level failure (`results.error` set), or a successful audit. -/
inductive AxeOutcome where
  | threw (msg : String)
  | engineError (msg : String)
  | ok (results : AxeResults)
  deriving Repr, DecidableEq

/-- AccessibilityTester._formatIssues: maps raw findings to Issues with the
given severity; `issue.help || issue.description` and
`issue.impact || 'minor'` use JS truthiness. -/
def formatIssues (issues : List AxeFinding) (severity : String) : List Issue :=
  issues.map fun issue =>
    let nodes := issue.nodes
    let elementCount := nodes.length
    { type := "Accessibility " ++ severity ++ ": " ++ issue.id
      description := jsOrStr issue.help issue.description
      severity := severity
      impact := some (jsOrStr issue.impact "minor")
      location := some (if elementCount > 0 then
          toString elementCount ++ " element(s) affected"
        else "Unknown location")
      suggestion := some (match issue.helpUrl with
        | some u =>
          if u = "" then "Fix according to WCAG guidelines"
          else "See " ++ u ++ " for more information"
        | none => "Fix according to WCAG guidelines")
      elements := nodes }

/-- AccessibilityTester.runTests with the `includeWarnings` option (default
true): engine error and thrown exception both return `{success:false,
error}` with NO issues field; the success path formats violations as
errors, optionally appends incomplete findings as warnings, and sets
`success = violations.length === 0`. -/
def accessibilityRunTests (includeWarnings : Bool) (inp : AxeOutcome) : PhaseResult :=
  match inp with
  | .threw msg => { success := false, error := some msg }
  | .engineError msg => { success := false, error := some msg }
  | .ok results =>
    let violations := results.violations
    let warnings := if includeWarnings then results.incomplete else []
    let issues := formatIssues violations "error" ++ formatIssues warnings "warning"
    { success := violations.isEmpty, issues := some issues }

/-- Constructor default for the `includeWarnings` option. -/
def defaultIncludeWarnings : Bool := true

/-! ## Browser navigation (src/modules/browser-manager.js, BrowserManager.navigateTo) -/

/-- What `page.goto` can yield: a thrown navigation error (caught, returns
false), a null response, or a response with an HTTP status code. -/
inductive NavOutcome where
  | threw (msg : String)
  | noResponse
  | response (status : Nat)
  deriving Repr, DecidableEq

/-- BrowserManager.navigateTo: false on exception, on missing response, and
on status >= 400; true otherwise. -/
def navigateTo : NavOutcome → Bool
  | .threw _ => false
  | .noResponse => false
  | .response status => decide (status < 400)

/-! ## Orchestrator (src/test-runner.js, TestRunner.runTests) -/

/-- The four phase testers, as a closed enumeration; the trace component of
`runTests` records which phases executed, in order. -/
inductive Phase where
  | accessibility
  | functional
  | performance
  | responsive
  deriving Repr, DecidableEq

/-- The environment one orchestrator run observes: whether `new URL(url)`
parses (external WHATWG parser), the navigation outcome, and the result
each phase tester produces when invoked against the shared session. -/
structure RunEnv where
  url : String
  urlValid : Bool
  nav : NavOutcome
  accessibilityResult : PhaseResult
  functionalResult : PhaseResult
  performanceResult : PhaseResult
  responsiveResult : PhaseResult
  deriving Repr, DecidableEq

/-- The `summary` object computed in TestRunner.runTests. -/
structure Summary where
  totalPages : Nat
  totalTests : Nat
  passedTests : Nat
  failedTests : Nat
  deriving Repr, DecidableEq

/-- The `.filter(Boolean).length` idiom on an array of booleans. -/
def countTrue (l : List Bool) : Nat := (l.filter (fun b => b)).length

/-- The `testResults` object handed to the report generator (the ISO
timestamp, a pure clock read, is omitted). `details` keeps the four phase
results in object insertion order. -/
structure TestResults where
  url : String
  summary : Summary
  performance : Option Scores
  issues : List Issue
  accessibilityDetails : PhaseResult
  functionalDetails : PhaseResult
  performanceDetails : PhaseResult
  responsiveDetails : PhaseResult
  deriving Repr, DecidableEq

/-- What TestRunner.runTests returns to its caller, plus two ghost fields
tracking the browser-session lifecycle: `sessionOpened` records that
`browserManager` was constructed and `sessionReleased` that the `finally`
block's `close()` ran on a constructed manager. -/
structure RunOutput where
  success : Bool
  results : Option TestResults := none
  error : Option String := none
  sessionOpened : Bool := false
  sessionReleased : Bool := false
  deriving Repr, DecidableEq

/-- TestRunner.runTests. Returns the trace of phases executed (in source
order: accessibility, functional, performance, responsive — lines 76-86)
together with the result object. Invalid URL: throw before the browser is
created, caught at the top, no session. Navigation failure: throw after the
session exists, caught at the top, session closed by `finally`. Otherwise
all four phases run, `allIssues` concatenates `phase.issues || []` in the
same order, the summary counts phase success flags, and run-level
`success = allIssues.length === 0`. -/
def runTests (env : RunEnv) : List Phase × RunOutput :=
  if env.urlValid = false then
    ([], { success := false, error := some ("Invalid URL: " ++ env.url) })
  else if navigateTo env.nav = false then
    ([], { success := false
           error := some ("Failed to navigate to " ++ env.url)
           sessionOpened := true, sessionReleased := true })
  else
    let accessibilityResults := env.accessibilityResult
    let functionalResults := env.functionalResult
    let performanceResults := env.performanceResult
    let responsiveResults := env.responsiveResult
    let allIssues :=
      accessibilityResults.issues.getD [] ++ functionalResults.issues.getD [] ++
      performanceResults.issues.getD [] ++ responsiveResults.issues.getD []
    let summary : Summary :=
      { totalPages := 1
        totalTests := 4
        passedTests := countTrue
          [accessibilityResults.success, functionalResults.success,
           performanceResults.success, responsiveResults.success]
        failedTests := countTrue
          [!accessibilityResults.success, !functionalResults.success,
           !performanceResults.success, !responsiveResults.success] }
    ([Phase.accessibility, Phase.functional, Phase.performance, Phase.responsive],
     { success := allIssues.isEmpty
       results := some
         { url := env.url
           summary := summary
           performance := performanceResults.scores
           issues := allIssues
           accessibilityDetails := accessibilityResults
           functionalDetails := functionalResults
           performanceDetails := performanceResults
           responsiveDetails := responsiveResults }
       sessionOpened := true, sessionReleased := true })

/-- Aggregated issue list of a run, empty when the run aborted before
aggregation. -/
def getIssues (out : RunOutput) : List Issue :=
  match out.results with
  | some r => r.issues
  | none => []

/-- The summary's failed-test count, 0 when the run aborted. -/
def getFailedTests (out : RunOutput) : Nat :=
  match out.results with
  | some r => r.summary.failedTests
  | none => 0

/-! ## Clickability predicate (FunctionalTester._isElementClickable, page-side script) -/

/-- A DOMRect as read by the script (`getBoundingClientRect`). -/
structure DomRect where
  left : ℚ
  top : ℚ
  width : ℚ
  height : ℚ

/-- The three computed-style properties the script inspects. -/
structure ComputedStyle where
  visibility : String
  display : String
  opacity : String

/-- The DOM facts the page-side closure observes: the `querySelector`
result (an element identity, or none), each element's bounding rect and
computed style, `document.elementFromPoint`, and the DOM `Node.contains`
relation (descendant-or-self). -/
structure ClickPage where
  element : Option Nat
  rectOf : Nat → DomRect
  styleOf : Nat → ComputedStyle
  elementFromPoint : ℚ → ℚ → Option Nat
  contains : Nat → Nat → Bool

/-- FunctionalTester._isElementClickable's in-page logic: false when the
element is missing, has zero width or height, is hidden by
visibility/display/opacity, or when the element hit-tested at its center is
neither itself (`===`) nor contained in it; `contains(null)` is false. -/
def isElementClickable (p : ClickPage) : Bool :=
  match p.element with
  | none => false
  | some e =>
    let rect := p.rectOf e
    if rect.width = 0 ∨ rect.height = 0 then false
    else
      let style := p.styleOf e
      if style.visibility = "hidden" ∨ style.display = "none" ∨ style.opacity = "0" then
        false
      else
        let centerX := rect.left + rect.width / 2
        let centerY := rect.top + rect.height / 2
        match p.elementFromPoint centerX centerY with
        | none => false
        | some hit => e = hit || p.contains e hit

/-! ## Concrete scenario inputs used by the claim theorems -/

/-- Shorthand for the concatenation `accessibility ++ functional ++
performance ++ responsive` of `phase.issues || []` built in runTests. -/
def aggIssues (env : RunEnv) : List Issue :=
  env.accessibilityResult.issues.getD [] ++ env.functionalResult.issues.getD [] ++
  env.performanceResult.issues.getD [] ++ env.responsiveResult.issues.getD []

/-- Marker issue carried by the accessibility phase in the C1 scenario. -/
def issueAcc : Issue :=
  { type := "Accessibility warning: marker", description := "acc", severity := "warning" }

/-- Marker issue carried by the functional phase in the C1 scenario. -/
def issueFun : Issue :=
  { type := "Button Missing Text", description := "fun", severity := "warning" }

/-- Marker issue carried by the performance phase in the C1 scenario. -/
def issuePerf : Issue :=
  { type := "Slow Page Load", description := "perf", severity := "warning" }

/-- Marker issue carried by the responsive phase in the C1 scenario. -/
def issueResp : Issue :=
  { type := "Tiny Text", description := "resp", severity := "warning" }

/-- A successful run whose four phases carry one distinct marker issue each. -/
def envC1 : RunEnv :=
  { url := "https://example.com"
    urlValid := true
    nav := .response 200
    accessibilityResult := { success := false, issues := some [issueAcc] }
    functionalResult := { success := false, issues := some [issueFun] }
    performanceResult := { success := false, issues := some [issuePerf] }
    responsiveResult := { success := false, issues := some [issueResp] } }

/-- A clean run: all four phases succeed with empty issue lists. -/
def envClean : RunEnv :=
  { url := "https://example.com"
    urlValid := true
    nav := .response 200
    accessibilityResult := { success := true, issues := some [] }
    functionalResult := { success := true, issues := some [] }
    performanceResult := { success := true, issues := some [] }
    responsiveResult := { success := true, issues := some [] } }

/-- The results object the clean run produces. -/
def resClean : TestResults :=
  { url := "https://example.com"
    summary := { totalPages := 1, totalTests := 4, passedTests := 4, failedTests := 0 }
    performance := none
    issues := []
    accessibilityDetails := { success := true, issues := some [] }
    functionalDetails := { success := true, issues := some [] }
    performanceDetails := { success := true, issues := some [] }
    responsiveDetails := { success := true, issues := some [] } }

/-- A run whose navigation comes back with HTTP 404 (scenario C). -/
def envNav404 : RunEnv :=
  { url := "https://example.com/missing"
    urlValid := true
    nav := .response 404
    accessibilityResult := { success := true }
    functionalResult := { success := true }
    performanceResult := { success := true }
    responsiveResult := { success := true } }

/-- The results object produced by the marker run envC1. -/
def resC1 : TestResults :=
  { url := "https://example.com"
    summary := { totalPages := 1, totalTests := 4, passedTests := 0, failedTests := 4 }
    performance := none
    issues := [issueAcc, issueFun, issuePerf, issueResp]
    accessibilityDetails := { success := false, issues := some [issueAcc] }
    functionalDetails := { success := false, issues := some [issueFun] }
    performanceDetails := { success := false, issues := some [issuePerf] }
    responsiveDetails := { success := false, issues := some [issueResp] } }

/-- The resource entry used in scenario B: one fiftieth of 1 MiB each, so
50 of them total exactly 1048576 bytes. -/
def resB : ResourceTiming :=
  { name := "https://example.com/resource", duration := 10,
    transferSize := some (1048576 / 50 : ℚ), initiatorType := some "script" }

/-- Scenario B input: loadTime 4000ms, FCP 1500ms, 50 resources totaling
1 MiB, default thresholds. -/
def perfScenarioB : PerfInput :=
  { raw := { navigationStart := some 0, domContentLoaded := some 1000,
             firstPaint := some 1200, firstContentfulPaint := some 1500,
             loadEventEnd := some 4000 }
    resources := List.replicate 50 resB
    thresholds := defaultThresholds }

/-- One incomplete axe finding used in the scenario E sample. -/
def axeIncompleteFinding (n : String) : AxeFinding :=
  { id := n, help := some "Elements must meet contrast expectations",
    description := "Ensure contrast", impact := some "serious",
    helpUrl := some "https://dequeuniversity.com/rules/axe/color-contrast",
    nodes := [{ html := "<div>low contrast</div>", target := ["div"] }] }

/-- Scenario E audit output: zero violations, two incomplete findings. -/
def axeSampleE : AxeResults :=
  { violations := []
    incomplete := [axeIncompleteFinding "color-contrast",
                   axeIncompleteFinding "link-in-text-block"] }

/-- A page whose queried element has a zero-width bounding rect. -/
def clickPageZeroWidth : ClickPage :=
  { element := some 0
    rectOf := fun _ => { left := 10, top := 10, width := 0, height := 20 }
    styleOf := fun _ => { visibility := "visible", display := "block", opacity := "1" }
    elementFromPoint := fun _ _ => some 0
    contains := fun a b => a = b }

/-- The accessibility phase result after an engine-level failure: success
false, an error message, and NO issues field. -/
def axeEngineFailResult : PhaseResult :=
  accessibilityRunTests true (.engineError "axe run failed")

/-- A sub-test result with no issues recorded. -/
def cleanSub : SubResult := { success := true }

/-- Six clean functional sub-tests. -/
def funcAllOk : FuncSubResults :=
  { navigation := cleanSub, buttons := cleanSub, forms := cleanSub,
    links := cleanSub, images := cleanSub, inputs := cleanSub }

/-- A fast page: every timing score is 1 and the custom thresholds clear the
placeholder scores, so the performance phase emits no issue. -/
def perfFastInput : PerfInput :=
  { raw := { navigationStart := some 0, domContentLoaded := some 300,
             firstPaint := some 400, firstContentfulPaint := some 500,
             loadEventEnd := some 1000 }
    resources := []
    thresholds := { performance := 7/10, accessibility := 8/10,
                    bestPractices := 9/10, seo := 8/10 } }

/-- The four configured viewports with no responsive findings. -/
def cleanChecks : List ViewportCheck :=
  [{ viewport := ⟨1920, 1080, "Desktop"⟩, hasHorizontalOverflow := false,
     overflowingCount := 0, tinyTextCount := 0, overlappingCount := 0 },
   { viewport := ⟨1366, 768, "Laptop"⟩, hasHorizontalOverflow := false,
     overflowingCount := 0, tinyTextCount := 0, overlappingCount := 0 },
   { viewport := ⟨768, 1024, "Tablet"⟩, hasHorizontalOverflow := false,
     overflowingCount := 0, tinyTextCount := 0, overlappingCount := 0 },
   { viewport := ⟨375, 667, "Mobile"⟩, hasHorizontalOverflow := false,
     overflowingCount := 0, tinyTextCount := 0, overlappingCount := 0 }]

/-- The run in which the accessibility engine fails and the other three
phases come back clean. -/
def envC10 : RunEnv :=
  { url := "https://example.com"
    urlValid := true
    nav := .response 200
    accessibilityResult := axeEngineFailResult
    functionalResult := functionalRunTests (.ok funcAllOk)
    performanceResult := performanceRunTests (.ok perfFastInput)
    responsiveResult := responsiveRunTests (.ok cleanChecks) }

/-! ## Characterization lemmas for the orchestrator's main branch -/

/-- On the main branch, runTests returns exactly this results object. -/
theorem runTests_results (env : RunEnv)
    (h1 : env.urlValid = true) (h2 : navigateTo env.nav = true) :
    (runTests env).2.results = some
      { url := env.url
        summary :=
          { totalPages := 1
            totalTests := 4
            passedTests := countTrue
              [env.accessibilityResult.success, env.functionalResult.success,
               env.performanceResult.success, env.responsiveResult.success]
            failedTests := countTrue
              [!env.accessibilityResult.success, !env.functionalResult.success,
               !env.performanceResult.success, !env.responsiveResult.success] }
        performance := env.performanceResult.scores
        issues := aggIssues env
        accessibilityDetails := env.accessibilityResult
        functionalDetails := env.functionalResult
        performanceDetails := env.performanceResult
        responsiveDetails := env.responsiveResult } := by
  simp [runTests, aggIssues, h1, h2]

/-- On the main branch, run-level success is emptiness of the aggregate. -/
theorem runTests_success (env : RunEnv)
    (h1 : env.urlValid = true) (h2 : navigateTo env.nav = true) :
    (runTests env).2.success = (aggIssues env).isEmpty := by
  simp [runTests, aggIssues, h1, h2]

/-- Summing the Boolean-filter counts of four flags and their negations
always gives four (the JS `.filter(Boolean).length` pair). -/
theorem countTrue_not_add (a b c d : Bool) :
    countTrue [a, b, c, d] + countTrue [!a, !b, !c, !d] = 4 := by
  cases a <;> cases b <;> cases c <;> cases d <;> rfl

/-! ## C1 -/

/-- C1 counterexample: on a successful run the orchestrator does NOT execute
the phases in the claimed order Functional, Responsive, Performance,
Accessibility, and the aggregated issue list is NOT the concatenation in
that order; the source order is Accessibility, Functional, Performance,
Responsive (test-runner.js lines 76-94), and the aggregate is concatenated
accessibility-first. -/
theorem phaseOrder_spec_counterexample :
    (runTests envC1).1 ≠
      [Phase.functional, Phase.responsive, Phase.performance, Phase.accessibility] ∧
    getIssues (runTests envC1).2 ≠ [issueFun, issueResp, issuePerf, issueAcc] ∧
    (runTests envC1).1 =
      [Phase.accessibility, Phase.functional, Phase.performance, Phase.responsive] ∧
    getIssues (runTests envC1).2 = [issueAcc, issueFun, issuePerf, issueResp] := by
  refine ⟨by decide, by decide, rfl, rfl⟩

/-- C1 (amended): in every successful run the orchestrator runs the four
phases in the sequence Accessibility, then Functional, then Performance,
then Responsive, and the aggregated issue list is the concatenation of the
phase issue lists in that same order (accessibility issues first,
responsive issues last). -/
theorem phase_order_and_aggregation (env : RunEnv)
    (h1 : env.urlValid = true) (h2 : navigateTo env.nav = true) :
    (runTests env).1 =
      [Phase.accessibility, Phase.functional, Phase.performance, Phase.responsive] ∧
    getIssues (runTests env).2 =
      env.accessibilityResult.issues.getD [] ++ env.functionalResult.issues.getD [] ++
      env.performanceResult.issues.getD [] ++ env.responsiveResult.issues.getD [] := by
  simp [runTests, getIssues, h1, h2]

/-- C1 witness: the amended theorem instantiated on the concrete run. -/
theorem phase_order_and_aggregation_witness :
    envC1.urlValid = true ∧ navigateTo envC1.nav = true ∧
    ((runTests envC1).1 =
      [Phase.accessibility, Phase.functional, Phase.performance, Phase.responsive] ∧
     getIssues (runTests envC1).2 =
      envC1.accessibilityResult.issues.getD [] ++ envC1.functionalResult.issues.getD [] ++
      envC1.performanceResult.issues.getD [] ++ envC1.responsiveResult.issues.getD []) :=
  ⟨rfl, rfl, phase_order_and_aggregation envC1 rfl rfl⟩

/-! ## C2 -/

/-- C2: for every run that reaches the aggregation step, the top-level
success flag is true iff the aggregated issue list across all phases (all
severities) is empty. -/
theorem runLevel_success_iff_no_issues (env : RunEnv) (res : TestResults)
    (h : (runTests env).2.results = some res) :
    ((runTests env).2.success = true ↔ res.issues = []) := by
  cases hb : env.urlValid with
  | false => simp [runTests, hb] at h
  | true =>
    cases hn : navigateTo env.nav with
    | false => simp [runTests, hb, hn] at h
    | true =>
      have hres := (runTests_results env hb hn).symm.trans h
      injection hres with hres
      subst hres
      rw [runTests_success env hb hn]
      simp [List.isEmpty_iff]

/-- C2 witness: the theorem instantiated on the clean run. -/
theorem runLevel_success_iff_no_issues_witness :
    (runTests envClean).2.results = some resClean ∧
    ((runTests envClean).2.success = true ↔ resClean.issues = []) :=
  ⟨rfl, runLevel_success_iff_no_issues envClean resClean rfl⟩

/-! ## C3 -/

/-- C3: if navigation reports no response or an HTTP status at least 400,
the run aborts before any phase executes (empty trace), the result carries
a navigation error with success=false and no results object (hence no
details or issues fields), and the browser session opened for the run is
still released before returning. -/
theorem navigation_failure_aborts (env : RunEnv)
    (h1 : env.urlValid = true)
    (h2 : env.nav = NavOutcome.noResponse ∨
          ∃ s, env.nav = NavOutcome.response s ∧ 400 ≤ s) :
    (runTests env).1 = [] ∧
    (runTests env).2.error = some ("Failed to navigate to " ++ env.url) ∧
    (runTests env).2.success = false ∧
    (runTests env).2.results = none ∧
    (runTests env).2.sessionOpened = true ∧
    (runTests env).2.sessionReleased = true := by
  have hn : navigateTo env.nav = false := by
    rcases h2 with h | ⟨s, hs, h400⟩
    · rw [h]; rfl
    · rw [hs]
      simp only [navigateTo, decide_eq_false_iff_not, not_lt]
      exact h400
  simp [runTests, h1, hn]

/-- C3 witness: the theorem instantiated on the 404 run. -/
theorem navigation_failure_aborts_witness :
    envNav404.urlValid = true ∧
    (envNav404.nav = NavOutcome.response 404 ∧ 400 ≤ 404) ∧
    ((runTests envNav404).1 = [] ∧
     (runTests envNav404).2.error = some ("Failed to navigate to " ++ envNav404.url) ∧
     (runTests envNav404).2.success = false ∧
     (runTests envNav404).2.results = none ∧
     (runTests envNav404).2.sessionOpened = true ∧
     (runTests envNav404).2.sessionReleased = true) :=
  ⟨rfl, ⟨rfl, by norm_num⟩,
   navigation_failure_aborts envNav404 rfl (Or.inr ⟨404, rfl, by norm_num⟩)⟩

/-! ## C4 -/

/-- C4 counterexample: an exception at the functional phase boundary (and
likewise at the accessibility one) yields a result with NO issues list at
all — not a result containing exactly one synthetic error Issue as the
claim states for every phase. -/
theorem phase_catch_counterexample :
    (functionalRunTests (.error "Browser not initialized")).issues = none ∧
    (functionalRunTests (.error "Browser not initialized")).success = false ∧
    (accessibilityRunTests true (.threw "Browser not initialized")).issues = none := by
  exact ⟨rfl, rfl, rfl⟩

/-- C4 (amended): exceptions are caught at every phase boundary and never
propagate, but only the Performance and Responsive phases degrade to
{success:false, issues:[single synthetic "<Phase> Test Error" issue]}; the
Functional and Accessibility phases return {success:false, error:message}
with no issues list. -/
theorem phase_catch_behavior (msg : String) (iw : Bool) :
    performanceRunTests (.error msg) =
      { success := false, error := some msg,
        issues := some [{ type := "Performance Test Error", description := msg,
                          severity := "error" }] } ∧
    responsiveRunTests (.error msg) =
      { success := false, error := some msg,
        issues := some [{ type := "Responsive Test Error", description := msg,
                          severity := "error" }] } ∧
    functionalRunTests (.error msg) = { success := false, error := some msg } ∧
    accessibilityRunTests iw (.threw msg) = { success := false, error := some msg } := by
  exact ⟨rfl, rfl, rfl, rfl⟩

/-! ## C5 -/

/-- C5: for every run that returns a results object, the summary satisfies
totalTests = 4 and passedTests + failedTests = 4, where passedTests counts
the phases with success=true and failedTests those with success=false. -/
theorem summary_totals (env : RunEnv) (res : TestResults)
    (h : (runTests env).2.results = some res) :
    res.summary.totalTests = 4 ∧
    res.summary.passedTests + res.summary.failedTests = 4 ∧
    res.summary.passedTests = countTrue
      [env.accessibilityResult.success, env.functionalResult.success,
       env.performanceResult.success, env.responsiveResult.success] ∧
    res.summary.failedTests = countTrue
      [!env.accessibilityResult.success, !env.functionalResult.success,
       !env.performanceResult.success, !env.responsiveResult.success] := by
  cases hb : env.urlValid with
  | false => simp [runTests, hb] at h
  | true =>
    cases hn : navigateTo env.nav with
    | false => simp [runTests, hb, hn] at h
    | true =>
      have hres := (runTests_results env hb hn).symm.trans h
      injection hres with hres
      subst hres
      exact ⟨rfl, countTrue_not_add _ _ _ _, rfl, rfl⟩

/-- C5 witness: the theorem instantiated on the concrete marker run, whose
four phases all report success=false. -/
theorem summary_totals_witness :
    (runTests envC1).2.results = some resC1 ∧
    (resC1.summary.totalTests = 4 ∧
     resC1.summary.passedTests + resC1.summary.failedTests = 4 ∧
     resC1.summary.passedTests = countTrue
       [envC1.accessibilityResult.success, envC1.functionalResult.success,
        envC1.performanceResult.success, envC1.responsiveResult.success] ∧
     resC1.summary.failedTests = countTrue
       [!envC1.accessibilityResult.success, !envC1.functionalResult.success,
        !envC1.performanceResult.success, !envC1.responsiveResult.success]) :=
  ⟨rfl, summary_totals envC1 resC1 rfl⟩

/-! ## C6 -/

/-- C6: for all min < max, the performance score function is monotonically
non-increasing in its value argument, its result always lies in [0,1], it
equals 1 whenever the value is at most min, and it equals 0 whenever the
value is at least max. -/
theorem calculateScore_spec (mn mx : ℚ) (hlt : mn < mx) :
    (∀ x y : ℚ, x ≤ y → calculateScore y mn mx ≤ calculateScore x mn mx) ∧
    (∀ x : ℚ, 0 ≤ calculateScore x mn mx ∧ calculateScore x mn mx ≤ 1) ∧
    (∀ x : ℚ, x ≤ mn → calculateScore x mn mx = 1) ∧
    (∀ x : ℚ, mx ≤ x → calculateScore x mn mx = 0) := by
  have hd : (0 : ℚ) < mx - mn := sub_pos.mpr hlt
  refine ⟨?_, ?_, ?_, ?_⟩
  · intro x y hxy
    simp only [calculateScore]
    have h1 : (x - mn) / (mx - mn) ≤ (y - mn) / (mx - mn) := by
      rw [div_le_div_iff₀ hd hd]
      nlinarith
    have h2 : min (max ((x - mn) / (mx - mn)) 0) 1 ≤
        min (max ((y - mn) / (mx - mn)) 0) 1 :=
      min_le_min (max_le_max h1 le_rfl) le_rfl
    exact max_le_max le_rfl (min_le_min le_rfl (by linarith))
  · intro x
    refine ⟨le_max_left 0 _, ?_⟩
    simp only [calculateScore]
    exact max_le (by norm_num) (min_le_left 1 _)
  · intro x hx
    have hr : (x - mn) / (mx - mn) ≤ 0 :=
      div_nonpos_of_nonpos_of_nonneg (by linarith) (by linarith)
    simp only [calculateScore]
    rw [max_eq_right hr]
    norm_num
  · intro x hx
    have hr1 : (1 : ℚ) ≤ (x - mn) / (mx - mn) := by
      rw [le_div_iff₀ hd]
      nlinarith
    have hr0 : (0 : ℚ) ≤ (x - mn) / (mx - mn) := le_trans zero_le_one hr1
    simp only [calculateScore]
    rw [max_eq_left hr0, min_eq_right hr1]
    norm_num

/-- C6 witness: the theorem instantiated at the FCP bounds used in the
source (min 1000, max 3000) on values 500 and 4000. -/
theorem calculateScore_spec_witness :
    (1000 : ℚ) < 3000 ∧
    (500 : ℚ) ≤ 1000 ∧ calculateScore 500 1000 3000 = 1 ∧
    (3000 : ℚ) ≤ 4000 ∧ calculateScore 4000 1000 3000 = 0 :=
  ⟨by norm_num, by norm_num,
   (calculateScore_spec 1000 3000 (by norm_num)).2.2.1 500 (by norm_num),
   by norm_num,
   (calculateScore_spec 1000 3000 (by norm_num)).2.2.2 4000 (by norm_num)⟩

/-! ## C7 -/

/-- Folding the transfer-size sum over n copies of one resource. -/
theorem sumRes_replicate (n : ℕ) (r : ResourceTiming) (acc : ℚ) :
    (List.replicate n r).foldl (fun t x => t + x.transferSize.getD 0) acc =
      acc + n * r.transferSize.getD 0 := by
  induction n generalizing acc with
  | zero => simp
  | succ k ih => simp [List.replicate, ih]; ring

/-- C7 counterexample: on scenario B's metrics under the default
thresholds, the performance phase produces three issues, not exactly one:
the blended performance score is 0.6 < 0.7 and the accessibility
placeholder 0.85 < 0.9, so two "Performance Issue" warnings join the
"Slow Page Load" one. -/
theorem perfScenarioB_counterexample :
    ((performanceRunTests (.ok perfScenarioB)).issues.getD []).length = 3 ∧
    ((performanceRunTests (.ok perfScenarioB)).issues.getD []).length ≠ 1 := by
  have hsum : (List.replicate 50 resB).foldl
      (fun t x => t + x.transferSize.getD (0:ℚ)) 0 = 1048576 := by
    rw [sumRes_replicate]; norm_num [resB]
  refine ⟨?_, ?_⟩ <;>
    norm_num [performanceRunTests, perfScenarioB, hsum, defaultThresholds,
      thresholdIssues, calculateScore, max_def, min_def, scoreIssue]

/-- C7 (amended): on scenario B's metrics (loadTime 4000ms, FCP 1500ms, 50
resources totaling 1 MiB) under the default configured thresholds, the
phase produces exactly three issues — "Slow Page Load" plus two
"Performance Issue" warnings for the performance score (0.6, below the 0.7
threshold) and the accessibility placeholder score (0.85, below the 0.9
threshold) — and returns success=false. -/
theorem perfScenarioB_actual :
    (performanceRunTests (.ok perfScenarioB)).success = false ∧
    ((performanceRunTests (.ok perfScenarioB)).issues.getD []).map Issue.type =
      ["Slow Page Load", "Performance Issue", "Performance Issue"] ∧
    (performanceRunTests (.ok perfScenarioB)).scores = some
      { performance := 3/5, accessibility := 85/100,
        bestPractices := 9/10, seo := 85/100 } := by
  have hsum : (List.replicate 50 resB).foldl
      (fun t x => t + x.transferSize.getD (0:ℚ)) 0 = 1048576 := by
    rw [sumRes_replicate]; norm_num [resB]
  norm_num [performanceRunTests, perfScenarioB, hsum, defaultThresholds,
    thresholdIssues, calculateScore, max_def, min_def, scoreIssue]

/-! ## C8 -/

/-- C8: the accessibility phase succeeds iff the audit's violations list is
empty, and with includeWarnings=true the incomplete findings are still
emitted as warning-severity issues after the violation issues, while
success remains a function of the violations alone. -/
theorem accessibility_success_iff_no_violations (iw : Bool) (r : AxeResults) :
    ((accessibilityRunTests iw (.ok r)).success = true ↔ r.violations = []) ∧
    (iw = true →
      (accessibilityRunTests iw (.ok r)).issues =
        some (formatIssues r.violations "error" ++ formatIssues r.incomplete "warning") ∧
      ∀ i ∈ formatIssues r.incomplete "warning", i.severity = "warning") := by
  constructor
  · simp [accessibilityRunTests, List.isEmpty_iff]
  · rintro rfl
    refine ⟨by simp [accessibilityRunTests], ?_⟩
    intro i hi
    simp only [formatIssues, List.mem_map] at hi
    obtain ⟨f, _, rfl⟩ := hi
    rfl

/-- C8 witness: the theorem instantiated on the scenario E audit with
includeWarnings=true. -/
theorem accessibility_success_iff_no_violations_witness :
    ((accessibilityRunTests true (.ok axeSampleE)).success = true ↔
      axeSampleE.violations = []) ∧
    ((accessibilityRunTests true (.ok axeSampleE)).issues =
      some (formatIssues axeSampleE.violations "error" ++
            formatIssues axeSampleE.incomplete "warning") ∧
     ∀ i ∈ formatIssues axeSampleE.incomplete "warning", i.severity = "warning") :=
  ⟨(accessibility_success_iff_no_violations true axeSampleE).1,
   (accessibility_success_iff_no_violations true axeSampleE).2 rfl⟩

/-! ## C9 -/

/-- C9: the clickability predicate (a pure function of the element's
geometry, computed style, and the hit test at its center) returns false for
every element with zero bounding width or height, false for every element
hidden via visibility/display/opacity styling, and false whenever the
element hit-tested at the center point is neither the element itself nor
one it contains (the element is covered). -/
theorem isElementClickable_false_cases (p : ClickPage) (e : Nat)
    (he : p.element = some e)
    (h : (p.rectOf e).width = 0 ∨ (p.rectOf e).height = 0 ∨
         (p.styleOf e).visibility = "hidden" ∨ (p.styleOf e).display = "none" ∨
         (p.styleOf e).opacity = "0" ∨
         (∃ hit, p.elementFromPoint
             ((p.rectOf e).left + (p.rectOf e).width / 2)
             ((p.rectOf e).top + (p.rectOf e).height / 2) = some hit ∧
           e ≠ hit ∧ p.contains e hit = false)) :
    isElementClickable p = false := by
  simp only [isElementClickable, he]
  by_cases hdim : (p.rectOf e).width = 0 ∨ (p.rectOf e).height = 0
  · rw [if_pos hdim]
  · rw [if_neg hdim]
    by_cases hsty : (p.styleOf e).visibility = "hidden" ∨
        (p.styleOf e).display = "none" ∨ (p.styleOf e).opacity = "0"
    · rw [if_pos hsty]
    · rw [if_neg hsty]
      rcases h with h | h | h | h | h | ⟨hit, hhit, hne, hcont⟩
      · exact absurd (Or.inl h) hdim
      · exact absurd (Or.inr h) hdim
      · exact absurd (Or.inl h) hsty
      · exact absurd (Or.inr (Or.inl h)) hsty
      · exact absurd (Or.inr (Or.inr h)) hsty
      · rw [hhit]
        simp [hne, hcont]

/-- C9 witness: the theorem applied to the zero-width element. -/
theorem isElementClickable_false_cases_witness :
    clickPageZeroWidth.element = some 0 ∧
    (clickPageZeroWidth.rectOf 0).width = 0 ∧
    isElementClickable clickPageZeroWidth = false :=
  ⟨rfl, rfl, isElementClickable_false_cases clickPageZeroWidth 0 rfl (Or.inl rfl)⟩

/-! ## C10 -/

/-- C10: there is a run whose accessibility phase result has success=false
with no issues list (an engine failure), and because aggregation substitutes
[] for the missing list, the run returns run-level success=true while
summary.failedTests = 1. -/
theorem missing_issues_success_inconsistency :
    envC10.accessibilityResult.success = false ∧
    envC10.accessibilityResult.issues = none ∧
    (runTests envC10).2.success = true ∧
    getFailedTests (runTests envC10).2 = 1 := by
  have hperf : performanceRunTests (.ok perfFastInput) =
      { success := true, issues := some [],
        scores := some { performance := 1, accessibility := 85/100,
                         bestPractices := 9/10, seo := 85/100 } } := by
    norm_num [performanceRunTests, perfFastInput, thresholdIssues,
      calculateScore, max_def, min_def]
  refine ⟨rfl, rfl, ?_, ?_⟩ <;>
    simp [runTests, getFailedTests, envC10, hperf, axeEngineFailResult,
      accessibilityRunTests, functionalRunTests, funcAllOk, cleanSub,
      responsiveRunTests, cleanChecks, viewportIssues, navigateTo, countTrue]
